import Mathlib

/-!
# Verification of the User-API-Management authentication core

Shallow embedding, in Lean 4, of the authentication core of the
`User-API-Management` Go service: the password-strength policy, the signup
and login orchestration (`internal/service/auth_service.go`), the JWT
issue/verify logic (`GenerateJWT` and `middleware.Auth`), the role gate
(`middleware.RequireRole`), the signup HTTP handler
(`internal/handler/auth_handler.go`) and the paginated user listing
(`UserHandler.List` / `UserService.ListUsersWithAgePaginated`).

External collaborators (the bcrypt hasher, the SQL user store, the Go
`time.Parse` date parser and the JSON validator) are passed in as explicit
function parameters, exactly as the Go code receives them through its
repository / library boundaries.  The HMAC signature of the JWT library is
modelled symbolically: a signature value is identified with the triple
(algorithm, key, signed claims), so that signature verification succeeds
exactly when the verifier recomputes the same triple.  Machine integers
(`int32` user ids, `int64` counts, durations) are modelled as `Int`/`Nat`;
where the program wraps or truncates — the native-int offset
multiplication and the `int32(offset)` conversion in the paginated
listing — the embedding applies an explicit two's-complement wrap
(`wrapInt`).
-/

set_option autoImplicit false

namespace Backend

/-! ## Credential policy (`AuthService.ValidatePasswordStrength`) -/

/-- The five password-policy violations, in the order the Go code checks
them (`auth_service.go`, `ErrPasswordTooShort` … `ErrPasswordNoSpecial`). -/
inductive PasswordError where
  | TooShort
  | NoUppercase
  | NoLowercase
  | NoDigit
  | NoSpecial
deriving DecidableEq, Repr

/-- The Go regex `[A-Z]` matched against one rune. -/
def isUpperAZ (c : Char) : Bool := decide (65 ≤ c.toNat) && decide (c.toNat ≤ 90)

/-- The Go regex `[a-z]` matched against one rune. -/
def isLowerAZ (c : Char) : Bool := decide (97 ≤ c.toNat) && decide (c.toNat ≤ 122)

/-- The Go regex `[0-9]` matched against one rune. -/
def isDigit09 (c : Char) : Bool := decide (48 ≤ c.toNat) && decide (c.toNat ≤ 57)

/-- Code points of the special-character class of `auth_service.go`
(the 32 characters of the Go regex, written as code points so the class is
unambiguous): `! @ # $ % ^ & * ( ) _ + - = [ ] lbrace rbrace ; ' : " \ | , . < > / ? ~`
and the backquote. -/
def specialCodes : List Nat :=
  [33, 64, 35, 36, 37, 94, 38, 42, 40, 41, 95, 43, 45, 61, 91, 93, 123, 125,
   59, 39, 58, 34, 92, 124, 44, 46, 60, 62, 47, 63, 126, 96]

/-- The Go special-character regex matched against one rune. -/
def isSpecial (c : Char) : Bool := specialCodes.contains c.toNat

/-- `AuthService.ValidatePasswordStrength`.  Go's `len(password)` counts
bytes, hence `String.utf8ByteSize`; the regexes match runes, hence
`String.data`.  Returns `none` on success, `some e` for the first violated
rule (the Go function returns `nil` or the corresponding error value). -/
def ValidatePasswordStrength (password : String) : Option PasswordError :=
  if password.utf8ByteSize < 8 then some .TooShort
  else if !(password.data.any isUpperAZ) then some .NoUppercase
  else if !(password.data.any isLowerAZ) then some .NoLowercase
  else if !(password.data.any isDigit09) then some .NoDigit
  else if !(password.data.any isSpecial) then some .NoSpecial
  else none

/-! ## Theorems about the credential policy -/

/-- **C2.** `ValidatePasswordStrength` checks the five rules in the fixed
order length, uppercase, lowercase, digit, special; returns exactly the
first violated rule; succeeds exactly when all five rules hold; and on the
spec's examples returns `TooShort` for `"ab"` and `NoUppercase` for
`"abcdefgh"`. -/
theorem c2_validate_first_violation (password : String) :
    (ValidatePasswordStrength password = some .TooShort ↔
      password.utf8ByteSize < 8) ∧
    (ValidatePasswordStrength password = some .NoUppercase ↔
      ¬ password.utf8ByteSize < 8 ∧ password.data.any isUpperAZ = false) ∧
    (ValidatePasswordStrength password = some .NoLowercase ↔
      ¬ password.utf8ByteSize < 8 ∧ password.data.any isUpperAZ = true ∧
        password.data.any isLowerAZ = false) ∧
    (ValidatePasswordStrength password = some .NoDigit ↔
      ¬ password.utf8ByteSize < 8 ∧ password.data.any isUpperAZ = true ∧
        password.data.any isLowerAZ = true ∧ password.data.any isDigit09 = false) ∧
    (ValidatePasswordStrength password = some .NoSpecial ↔
      ¬ password.utf8ByteSize < 8 ∧ password.data.any isUpperAZ = true ∧
        password.data.any isLowerAZ = true ∧ password.data.any isDigit09 = true ∧
        password.data.any isSpecial = false) ∧
    (ValidatePasswordStrength password = none ↔
      ¬ password.utf8ByteSize < 8 ∧ password.data.any isUpperAZ = true ∧
        password.data.any isLowerAZ = true ∧ password.data.any isDigit09 = true ∧
        password.data.any isSpecial = true) ∧
    ValidatePasswordStrength "ab" = some .TooShort ∧
    ValidatePasswordStrength "abcdefgh" = some .NoUppercase := by
  refine ⟨?_, ?_, ?_, ?_, ?_, ?_, by decide, by decide⟩ <;>
    · unfold ValidatePasswordStrength
      split_ifs <;> simp_all

/-! ## JWT tokens (`AuthService.GenerateJWT`, `middleware.Auth` keyfunc)

The `golang-jwt/v5` library is external; its HMAC signature is modelled
symbolically: a signature is the triple (algorithm, key, signed claims) and
verification succeeds exactly when the verifier recomputes the same triple
(a perfect-MAC abstraction).  Times are `Int` seconds. -/

/-- JWT signing algorithms relevant to the middleware's keyfunc:
the three members of the Go `SigningMethodHMAC` family, a representative
non-HMAC method (`RS256`) and the unsigned `none` method. -/
inductive SigAlg where
  | HS256
  | HS384
  | HS512
  | RS256
  | NoneAlg
deriving DecidableEq, Repr

/-- `service.JWTClaims`: user id, role and registered issued-at /
expires-at timestamps. -/
structure Claims where
  userId : Int
  role : String
  issuedAt : Int
  expiresAt : Int
deriving DecidableEq, Repr

/-- A parsed JWT.  `sig = some (a, k, c)` stands for the MAC produced by
algorithm `a` with key `k` over claims `c`; `sig = none` is an unsigned
token (the `none` algorithm, or a stripped signature). -/
structure Token where
  alg : SigAlg
  claims : Claims
  sig : Option (SigAlg × String × Claims)
deriving DecidableEq, Repr

/-- The Go type assertion `token.Method.(*jwt.SigningMethodHMAC)` of the
middleware keyfunc: it holds for all three HMAC-SHA algorithms. -/
def SigAlg.isHMAC : SigAlg → Bool
  | .HS256 => true
  | .HS384 => true
  | .HS512 => true
  | .RS256 => false
  | .NoneAlg => false

/-- `AuthService.GenerateJWT`: fails when no secret is configured,
otherwise issues an HS256 token whose claims carry the user id, the role,
`IssuedAt = now` and `ExpiresAt = now + expiry`. -/
def GenerateJWT (jwtSecret : String) (jwtExpiry now : Int)
    (userID : Int) (role : String) : Except String Token :=
  if jwtSecret = "" then .error "JWT secret not configured"
  else
    let c : Claims := ⟨userID, role, now, now + jwtExpiry⟩
    .ok ⟨.HS256, c, some (.HS256, jwtSecret, c)⟩

/-- Token-verification failures distinguished by the model (the middleware
collapses both into one generic 401 response). -/
inductive TokenError where
  | badSignature
  | expired
deriving DecidableEq, Repr

/-- The verification performed by `jwt.ParseWithClaims` with the
middleware's keyfunc: the keyfunc rejects any non-HMAC signing method with
`jwt.ErrSignatureInvalid`; then the signature must be the MAC of the
token's own algorithm and claims under the configured secret; then the
registered `ExpiresAt` claim must lie strictly in the future. -/
def VerifyToken (jwtSecret : String) (now : Int) (t : Token) :
    Except TokenError Claims :=
  if !t.alg.isHMAC then .error .badSignature
  else
    match t.sig with
    | none => .error .badSignature
    | some s =>
      if s = (t.alg, jwtSecret, t.claims) then
        if now < t.claims.expiresAt then .ok t.claims
        else .error .expired
      else .error .badSignature

/-! ## Login (`AuthService.Login`)

The user store (`repository.GetByEmail`) and the bcrypt comparison
(`AuthService.ComparePassword`) are external collaborators, passed as
functions: `store email = none` models a lookup that returned an error
(user absent), and `passVerify hash password` models a successful bcrypt
comparison. -/

/-- A row of the `users` table as returned by `GetUserByEmail`
(fields not consulted by `Login` are omitted from the claims below but kept
in the record). -/
structure DBUser where
  id : Int
  name : String
  email : String
  passwordHash : String
  role : String
deriving DecidableEq, Repr

/-- `Login`'s error outcomes: the deliberately uniform
`ErrInvalidCredentials`, and the wrapped token-generation failure. -/
inductive LoginError where
  | invalidCredentials
  | tokenGeneration
deriving DecidableEq, Repr

/-- `AuthService.Login`: look the user up by email (any lookup failure
becomes `ErrInvalidCredentials`), compare the stored bcrypt hash (failure
becomes `ErrInvalidCredentials`), then issue a JWT. -/
def Login (store : String → Option DBUser) (passVerify : String → String → Bool)
    (jwtSecret : String) (jwtExpiry now : Int) (email password : String) :
    Except LoginError (DBUser × Token) :=
  match store email with
  | none => .error .invalidCredentials
  | some user =>
    if passVerify user.passwordHash password then
      match GenerateJWT jwtSecret jwtExpiry now user.id user.role with
      | .error _ => .error .tokenGeneration
      | .ok tok => .ok (user, tok)
    else .error .invalidCredentials

/-! ## Go string helpers used by `middleware.Auth`

ASCII fragment of Go's `strings.ToLower`, `strings.HasPrefix`,
`strings.Fields`, `strings.EqualFold` and `strings.Join` (the Unicode case
mappings beyond ASCII never affect the `"bearer "` comparisons the
middleware performs). -/

/-- `strings.ToLower`, per rune (ASCII range). -/
def toLowerAsciiChar (c : Char) : Char :=
  if 65 ≤ c.toNat ∧ c.toNat ≤ 90 then Char.ofNat (c.toNat + 32) else c

/-- `strings.ToLower` (ASCII range). -/
def toLowerAscii (s : String) : String := ⟨s.data.map toLowerAsciiChar⟩

/-- `strings.HasPrefix` on rune lists. -/
def startsWithList : List Char → List Char → Bool
  | _, [] => true
  | [], _ :: _ => false
  | c :: cs, p :: ps => c == p && startsWithList cs ps

/-- `unicode.IsSpace` restricted to Latin-1 (space, tab, newline, vertical
tab, form feed, carriage return, next line, no-break space). -/
def goIsSpace (c : Char) : Bool :=
  c.toNat == 32 || c.toNat == 9 || c.toNat == 10 || c.toNat == 11 ||
  c.toNat == 12 || c.toNat == 13 || c.toNat == 133 || c.toNat == 160

/-- Worker for `strings.Fields`: split around maximal runs of white space,
`acc` holding the current field reversed. -/
def fieldsAux : List Char → List Char → List (List Char)
  | [], acc => if acc.isEmpty then [] else [acc.reverse]
  | c :: cs, acc =>
    if goIsSpace c then
      if acc.isEmpty then fieldsAux cs [] else acc.reverse :: fieldsAux cs []
    else fieldsAux cs (c :: acc)

/-- `strings.Fields`. -/
def fields (s : String) : List String := (fieldsAux s.data []).map String.mk

/-- `strings.EqualFold` (ASCII folding). -/
def eqFoldAscii (s t : String) : Bool :=
  s.data.map toLowerAsciiChar == t.data.map toLowerAsciiChar

/-! ## Auth Gate (`middleware.Auth`) and Role Gate (`middleware.RequireRole`) -/

/-- Status code and machine-readable error code of a rejection response
(the `models.SendError` family). -/
structure ErrResp where
  status : Nat
  code : String
deriving DecidableEq, Repr

/-- `models.SendUnauthorized`: 401 with code `UNAUTHORIZED`. -/
def sendUnauthorizedResp : ErrResp := ⟨401, "UNAUTHORIZED"⟩

/-- The middleware's 401 response for a token that fails parsing or
verification (`models.ErrCodeInvalidToken`). -/
def invalidTokenResp : ErrResp := ⟨401, "INVALID_TOKEN"⟩

/-- The role gate's 403 response (`models.ErrCodeInsufficientPerms`). -/
def insufficientPermsResp : ErrResp := ⟨403, "INSUFFICIENT_PERMISSIONS"⟩

/-- Result of the header-extraction stage of `middleware.Auth`: either a
short-circuiting rejection response, or the token string handed to
`jwt.ParseWithClaims`. -/
inductive AuthOutcome where
  | reject (r : ErrResp)
  | proceed (token : String)
deriving DecidableEq, Repr

/-- The `Authorization`-header handling of `middleware.Auth`
(`part_006`, lines 70–113): empty header, missing lower-cased
`"bearer "` literal, fewer than two white-space-separated fields, a first
field other than `bearer` (case-insensitive), or an empty joined token all
reject with 401; otherwise the fields after the scheme keyword, re-joined
with single spaces, proceed to token verification. -/
def parseAuthHeader (authHeader : String) : AuthOutcome :=
  if authHeader = "" then .reject sendUnauthorizedResp
  else if !startsWithList (toLowerAscii authHeader).data "bearer ".data then
    .reject sendUnauthorizedResp
  else
    let parts := fields authHeader
    if parts.length < 2 then .reject sendUnauthorizedResp
    else if !eqFoldAscii parts.headI "bearer" then .reject sendUnauthorizedResp
    else
      let tokenString := String.intercalate " " parts.tail
      if tokenString = "" then .reject sendUnauthorizedResp
      else .proceed tokenString

/-- `models.AuthUser`: the principal the auth gate stores in the request
context. -/
structure AuthUser where
  id : Int
  role : String
deriving DecidableEq, Repr

/-- What a gate middleware does with the request: reject with a response
(so `c.Next()` is never called and no downstream handler runs), or pass it
on. -/
inductive GateDecision where
  | reject (r : ErrResp)
  | next (principal : AuthUser)
deriving DecidableEq, Repr

/-- `middleware.Auth`: header extraction, then `jwt.ParseWithClaims`.
`decode` models the parsing of the compact JWT string into a token
(`none` = malformed); a malformed or unverifiable token yields the single
generic 401 `invalidTokenResp`; on success the claims' user id and role
are attached to the context as the `AuthUser` principal. -/
def Auth (jwtSecret : String) (decode : String → Option Token) (now : Int)
    (authHeader : String) : GateDecision :=
  match parseAuthHeader authHeader with
  | .reject r => .reject r
  | .proceed tokenString =>
    match decode tokenString with
    | none => .reject invalidTokenResp
    | some t =>
      match VerifyToken jwtSecret now t with
      | .error _ => .reject invalidTokenResp
      | .ok c => .next ⟨c.userId, c.role⟩

/-- Result of the role gate: reject, or run the downstream handler. -/
inductive RoleDecision where
  | reject (r : ErrResp)
  | next
deriving DecidableEq, Repr

/-- `middleware.RequireRole`: no principal in context means 401
unauthorized; a principal whose role equals none of the allowed roles
means 403 forbidden; otherwise the request proceeds. -/
def RequireRole (allowedRoles : List String) (principal : Option AuthUser) :
    RoleDecision :=
  match principal with
  | none => .reject sendUnauthorizedResp
  | some u =>
    if allowedRoles.any (fun role => u.role == role) then .next
    else .reject insufficientPermsResp

/-! ## Signup orchestration (`AuthService.CreateUser`) and HTTP handler
(`AuthHandler.Signup`)

The bcrypt hasher (`HashPassword`), the `time.Parse` date parser and the
store insert (`repository.CreateWithAuth`) are external collaborators,
passed as functions.  To make ordering and invocation observable, the
embedding also returns the trace of collaborator calls the Go control flow
performs, in order. -/

/-- A calendar date, the result of Go's `time.Parse("2006-01-02", _)`. -/
structure Date where
  year : Int
  month : Nat
  day : Nat
deriving DecidableEq, Repr

/-- `generated.CreateUserRow`: the row returned by the `CreateUser` SQL
insert (timestamps kept abstract as `Int`). -/
structure CreateUserRow where
  id : Int
  name : String
  email : String
  role : String
  createdAt : Int
deriving DecidableEq, Repr

/-- One collaborator call made by `AuthService.CreateUser`, with the
arguments it received. -/
inductive AuthEvent where
  | policyCheck (password : String)
  | hashPassword (password : String)
  | parseDob (dobStr : String)
  | storeWrite (name email passwordHash role : String)
deriving DecidableEq, Repr

/-- The failures of `AuthService.CreateUser`. -/
inductive CreateUserError where
  | policy (e : PasswordError)
  | hashFailed
  | invalidDate
  | emailAlreadyExists
  | internalFailure (msg : String)
deriving DecidableEq, Repr

/-- First duplicate-email string `CreateUser` compares the store error
against verbatim. -/
def dupMsg1 : String := "duplicate key value violates unique constraint"

/-- Second duplicate-email string (the `lib/pq` form) `CreateUser`
compares the store error against verbatim. -/
def dupMsg2 : String :=
  "pq: duplicate key value violates unique constraint \"users_email_key\""

/-- `AuthService.CreateUser`: validate password strength, hash the
password, parse the date of birth, default an empty role to `"user"`,
insert via the repository, and map the two exact duplicate-key error
strings to `ErrEmailAlreadyExists` while wrapping every other store error
as `failed to create user: `.  The second component is the ordered trace
of collaborator calls. -/
def CreateUser (hashFn : String → Option String)
    (parseDate : String → Option Date)
    (store : String → String → String → String → Date → Except String CreateUserRow)
    (name email password dobStr role : String) :
    Except CreateUserError CreateUserRow × List AuthEvent :=
  match ValidatePasswordStrength password with
  | some e => (.error (.policy e), [.policyCheck password])
  | none =>
    match hashFn password with
    | none => (.error .hashFailed, [.policyCheck password, .hashPassword password])
    | some hashedPassword =>
      match parseDate dobStr with
      | none =>
        (.error .invalidDate,
         [.policyCheck password, .hashPassword password, .parseDob dobStr])
      | some dob =>
        let role2 := if role = "" then "user" else role
        let trace : List AuthEvent :=
          [.policyCheck password, .hashPassword password, .parseDob dobStr,
           .storeWrite name email hashedPassword role2]
        match store name email hashedPassword role2 dob with
        | .error msg =>
          if msg = dupMsg1 ∨ msg = dupMsg2 then (.error .emailAlreadyExists, trace)
          else (.error (.internalFailure ("failed to create user: " ++ msg)), trace)
        | .ok row => (.ok row, trace)

/-- `models.SignupRequest`: the fields `AuthHandler.Signup` parses from
the body.  The Go struct has no role field. -/
structure SignupRequest where
  name : String
  email : String
  password : String
  dob : String
deriving DecidableEq, Repr

/-- The raw signup request body: the parsed fields plus an arbitrary
`role` member a client may include.  `fiber`'s `BodyParser` drops members
without a matching struct field, which `parseSignupBody` makes explicit. -/
structure SignupBody where
  name : String
  email : String
  password : String
  dob : String
  bodyRole : Option String
deriving DecidableEq, Repr

/-- `c.BodyParser(&req)` for `models.SignupRequest`: every JSON member
without a corresponding struct field — in particular any `role` member —
is ignored. -/
def parseSignupBody (b : SignupBody) : SignupRequest :=
  ⟨b.name, b.email, b.password, b.dob⟩

/-- The possible responses of `AuthHandler.Signup`. -/
inductive SignupHttpResult where
  | badRequest (code : String)
  | conflict
  | internalError
  | created (id : Int) (name email role : String) (createdAt : Int)
deriving DecidableEq, Repr

/-- Go's `strings.Contains` on rune lists. -/
def containsSub (s sub : String) : Bool :=
  (List.range (s.data.length + 1)).any
    (fun i => startsWithList (s.data.drop i) sub.data)

/-- `AuthHandler.Signup`: parse the body, run the request validator
(`go-playground/validator`, abstracted as `validateReq`), re-check
password strength, then call `CreateUser` with the role literal `"user"`.
`ErrEmailAlreadyExists`, or any error whose message contains
`duplicate key` or `unique constraint`, becomes a 409 conflict; every
other error becomes a 500; success becomes 201 with the created row.  The
second component is the collaborator-call trace of the `CreateUser` run
(empty when the request never reaches it). -/
def Signup (validateReq : SignupRequest → Bool)
    (hashFn : String → Option String)
    (parseDate : String → Option Date)
    (store : String → String → String → String → Date → Except String CreateUserRow)
    (body : SignupBody) : SignupHttpResult × List AuthEvent :=
  let req := parseSignupBody body
  if !validateReq req then (.badRequest "VALIDATION_FAILED", [])
  else
    match ValidatePasswordStrength req.password with
    | some _ => (.badRequest "VALIDATION_FAILED", [])
    | none =>
      match CreateUser hashFn parseDate store req.name req.email req.password
          req.dob "user" with
      | (.ok row, trace) =>
        (.created row.id row.name row.email row.role row.createdAt, trace)
      | (.error .emailAlreadyExists, trace) => (.conflict, trace)
      | (.error (.internalFailure msg), trace) =>
        if containsSub msg "duplicate key" || containsSub msg "unique constraint" then
          (.conflict, trace)
        else (.internalError, trace)
      | (.error _, trace) => (.internalError, trace)

/-! ## Paginated user listing (`UserHandler.List`,
`UserService.ListUsersWithAgePaginated`)

The row data is irrelevant to the pagination arithmetic; the embedding
returns the limit/offset passed to `repo.ListPaginated` together with the
`models.PaginationMeta` the service builds.  The quantities entering the
metadata are non-negative once clamped and stay far below the native
integer width, so the Go truncating division agrees with `Nat` division
there; the `offset` however is computed by the service with a native
64-bit `int` multiplication (which wraps) and is then passed to
`repo.ListPaginated` as `int32(offset)` (which truncates), and the
embedding models both. -/

/-- Two's-complement wrap of an integer to `w` bits: Go's conversion to a
`w`-bit signed integer type, and the wrap-around of `w`-bit native signed
arithmetic. -/
def wrapInt (w : Nat) (x : Int) : Int :=
  (x + 2 ^ (w - 1)) % 2 ^ w - 2 ^ (w - 1)

/-- The limit and offset handed to the `ListUsersPaginated` SQL query;
both are the `int32` values of the Go call
`r.queries.ListUsersPaginated(ctx, {Limit, Offset})`. -/
structure PagedQuery where
  limit : Int
  offset : Int
deriving DecidableEq, Repr

/-- `models.PaginationMeta`. -/
structure PaginationMeta where
  total : Nat
  page : Nat
  limit : Nat
  totalPages : Nat
  hasNext : Bool
  hasPrevious : Bool
deriving DecidableEq, Repr

/-- `UserService.ListUsersWithAgePaginated`: clamp `page` below by 1 and
`limit` into `[1,100]` (fallback 10), compute
`offset := (page - 1) * limit` in native 64-bit `int` arithmetic (which
wraps on overflow), query the repository with
`int32(limit), int32(offset)` (two's-complement truncations), and build
the pagination metadata with `totalPages = total/limit` rounded up,
`hasNext = page < totalPages`, `hasPrevious = page > 1`.  `total` is the
store's `COUNT(*)`. -/
def ListUsersWithAgePaginated (total : Nat) (page limit : Int) :
    PagedQuery × PaginationMeta :=
  let p : Int := if page < 1 then 1 else page
  let l : Int := if limit < 1 ∨ 100 < limit then 10 else limit
  let offset : Int := wrapInt 64 ((p - 1) * l)
  let pN : Nat := p.toNat
  let lN : Nat := l.toNat
  let totalPages : Nat := total / lN + (if total % lN ≠ 0 then 1 else 0)
  (⟨wrapInt 32 l, wrapInt 32 offset⟩,
   ⟨total, pN, lN, totalPages, decide (pN < totalPages), decide (1 < pN)⟩)

/-- The pagination branch of `UserHandler.List`: the handler clamps
`page` below by 1 and `limit` below by 1 (fallback 10) before delegating
to the service, which clamps again. -/
def UserHandlerList (total : Nat) (page limit : Int) :
    PagedQuery × PaginationMeta :=
  let p : Int := if page < 1 then 1 else page
  let l : Int := if limit < 1 then 10 else limit
  ListUsersWithAgePaginated total p l

/-! ## Login uniformity (C1) -/

/-- **C1.** Login with an email absent from the store and login with a
present email but failing password verification both return exactly
`ErrInvalidCredentials`; the two failure results are identical. -/
theorem c1_login_uniform_invalid_credentials
    (store1 store2 : String → Option DBUser) (passVerify : String → String → Bool)
    (jwtSecret : String) (jwtExpiry now : Int) (email password : String)
    (user : DBUser)
    (h1 : store1 email = none)
    (h2 : store2 email = some user)
    (h3 : passVerify user.passwordHash password = false) :
    Login store1 passVerify jwtSecret jwtExpiry now email password =
      .error .invalidCredentials ∧
    Login store2 passVerify jwtSecret jwtExpiry now email password =
      .error .invalidCredentials ∧
    Login store1 passVerify jwtSecret jwtExpiry now email password =
      Login store2 passVerify jwtSecret jwtExpiry now email password := by
  refine ⟨?_, ?_, ?_⟩ <;> simp [Login, h1, h2, h3]

/-- Witness for C1 at concrete inputs: an empty store, and a store holding
one user whose password check fails, both yield `invalidCredentials`. -/
theorem c1_login_uniform_invalid_credentials_witness :
    Login (fun _ => none) (fun _ _ => false) "s" 3600 0 "a@b.c" "pw" =
      .error .invalidCredentials ∧
    Login (fun _ => some ⟨1, "n", "a@b.c", "h", "user"⟩) (fun _ _ => false)
      "s" 3600 0 "a@b.c" "pw" = .error .invalidCredentials ∧
    Login (fun _ => none) (fun _ _ => false) "s" 3600 0 "a@b.c" "pw" =
      Login (fun _ => some ⟨1, "n", "a@b.c", "h", "user"⟩) (fun _ _ => false)
        "s" 3600 0 "a@b.c" "pw" :=
  c1_login_uniform_invalid_credentials (fun _ => none)
    (fun _ => some ⟨1, "n", "a@b.c", "h", "user"⟩) (fun _ _ => false)
    "s" 3600 0 "a@b.c" "pw" ⟨1, "n", "a@b.c", "h", "user"⟩ rfl rfl rfl

/-! ## Token round-trip (C3) -/

/-- **C3.** With a signing secret configured, any token issued by
`GenerateJWT` verifies, at any time strictly before its expiry, to exactly
the claims it was issued with (same user id and role, `issuedAt = now`,
`expiresAt = now + expiry`); at any time from the expiry on, verification
rejects it as expired. -/
theorem c3_token_roundtrip
    (jwtSecret : String) (jwtExpiry now : Int) (uid : Int) (role : String)
    (t : Token)
    (hs : jwtSecret ≠ "")
    (ht : GenerateJWT jwtSecret jwtExpiry now uid role = .ok t) :
    (∀ now2 : Int, now2 < now + jwtExpiry →
      VerifyToken jwtSecret now2 t = .ok ⟨uid, role, now, now + jwtExpiry⟩) ∧
    (∀ now3 : Int, now + jwtExpiry ≤ now3 →
      VerifyToken jwtSecret now3 t = .error .expired) := by
  unfold GenerateJWT at ht
  rw [if_neg hs] at ht
  simp only [Except.ok.injEq] at ht
  subst ht
  constructor
  · intro now2 hlt
    simp [VerifyToken, SigAlg.isHMAC, hlt]
  · intro now3 hge
    simp [VerifyToken, SigAlg.isHMAC, not_lt.mpr hge]

/-- Witness for C3: the token issued at time 0 with expiry 100 for user 7
verifies to its claims at time 5 and is rejected as expired at time 100. -/
theorem c3_token_roundtrip_witness :
    VerifyToken "s" 5
      ⟨.HS256, ⟨7, "user", 0, 100⟩, some (.HS256, "s", ⟨7, "user", 0, 100⟩)⟩ =
      .ok ⟨7, "user", 0, 100⟩ ∧
    VerifyToken "s" 100
      ⟨.HS256, ⟨7, "user", 0, 100⟩, some (.HS256, "s", ⟨7, "user", 0, 100⟩)⟩ =
      .error .expired := by
  have h := c3_token_roundtrip "s" 100 0 7 "user"
    ⟨.HS256, ⟨7, "user", 0, 100⟩, some (.HS256, "s", ⟨7, "user", 0, 100⟩)⟩
    (by decide) (by rfl)
  exact ⟨h.1 5 (by decide), h.2 100 (by decide)⟩

/-! ## Algorithm confinement of verification (C4)

The middleware keyfunc accepts the whole `SigningMethodHMAC` family, not
only HS256: a token signed with HS384 (or HS512) under the configured
secret passes verification.  The claim that every algorithm other than the
configured HS256 is rejected is therefore false; what holds is that
verification rejects the `none` algorithm, every non-HMAC algorithm, every
signature made with a different secret, and accepts only HMAC-family
tokens whose signature was made with the configured secret over the
token's own claims. -/

/-- **C4 (counterexample).** Issuance uses HS256, yet a token whose
algorithm is HS384 — an algorithm other than the configured one — signed
with the configured secret is accepted by verification, contradicting the
claim that only the single configured algorithm is accepted. -/
theorem c4_counterexample :
    GenerateJWT "s3cret" 100 0 7 "user" =
      .ok ⟨.HS256, ⟨7, "user", 0, 100⟩, some (.HS256, "s3cret", ⟨7, "user", 0, 100⟩)⟩ ∧
    (Token.mk .HS384 ⟨7, "user", 0, 100⟩
        (some (.HS384, "s3cret", ⟨7, "user", 0, 100⟩))).alg ≠ SigAlg.HS256 ∧
    VerifyToken "s3cret" 0
      ⟨.HS384, ⟨7, "user", 0, 100⟩, some (.HS384, "s3cret", ⟨7, "user", 0, 100⟩)⟩ =
      .ok ⟨7, "user", 0, 100⟩ := by
  refine ⟨by rfl, by decide, by rfl⟩

/-- Helper: any signature other than the configured secret's MAC over the
token's own algorithm and claims is rejected. -/
theorem verifyToken_badSig_of_sig_ne (jwtSecret : String) (now : Int)
    (alg : SigAlg) (claims : Claims) (sig : Option (SigAlg × String × Claims))
    (hne : sig ≠ some (alg, jwtSecret, claims)) :
    VerifyToken jwtSecret now ⟨alg, claims, sig⟩ = .error .badSignature := by
  unfold VerifyToken
  cases hH : SigAlg.isHMAC alg with
  | false => simp [hH]
  | true =>
    cases sig with
    | none => simp [hH]
    | some s =>
      have hne2 : ¬ s = (alg, jwtSecret, claims) := fun h => hne (congrArg some h)
      simp [hH, hne2]

/-- **C4 (amended).** Verification rejects tokens with algorithm `none`,
tokens with a non-HMAC algorithm, unsigned tokens, and tokens whose
signature was made with a key other than the configured secret or with an
algorithm other than the token's declared one; it accepts a token only if
its algorithm is in the HMAC family (HS256/HS384/HS512, not only the
configured HS256) and its signature is the configured secret's MAC over
the token's own claims. -/
theorem c4_amended_verification (jwtSecret : String) (now : Int) (t : Token) :
    (t.alg = .NoneAlg → VerifyToken jwtSecret now t = .error .badSignature) ∧
    (t.alg = .RS256 → VerifyToken jwtSecret now t = .error .badSignature) ∧
    (t.sig = none → VerifyToken jwtSecret now t = .error .badSignature) ∧
    (∀ a k c, t.sig = some (a, k, c) → k ≠ jwtSecret →
      VerifyToken jwtSecret now t = .error .badSignature) ∧
    (∀ a k c, t.sig = some (a, k, c) → a ≠ t.alg →
      VerifyToken jwtSecret now t = .error .badSignature) ∧
    (∀ c, VerifyToken jwtSecret now t = .ok c →
      t.alg.isHMAC = true ∧ t.sig = some (t.alg, jwtSecret, t.claims) ∧
        c = t.claims) := by
  obtain ⟨alg, claims, sig⟩ := t
  dsimp only
  refine ⟨?_, ?_, ?_, ?_, ?_, ?_⟩
  · rintro rfl; rfl
  · rintro rfl; rfl
  · rintro rfl
    cases alg <;> rfl
  · rintro a k c hsig hk
    refine verifyToken_badSig_of_sig_ne jwtSecret now alg claims sig ?_
    rw [hsig]
    simp only [ne_eq, Option.some.injEq, Prod.mk.injEq, not_and]
    exact fun _ h2 => absurd h2 hk
  · rintro a k c hsig ha
    refine verifyToken_badSig_of_sig_ne jwtSecret now alg claims sig ?_
    rw [hsig]
    simp only [ne_eq, Option.some.injEq, Prod.mk.injEq, not_and]
    exact fun h1 => absurd h1 ha
  · intro c hok
    by_cases hH : SigAlg.isHMAC alg = true
    · cases hsig : sig with
      | none =>
        rw [(verifyToken_badSig_of_sig_ne jwtSecret now alg claims sig
          (by rw [hsig]; exact fun h => Option.noConfusion h))] at hok
        exact absurd hok (by simp)
      | some s =>
        by_cases hs : s = (alg, jwtSecret, claims)
        · subst hs
          refine ⟨hH, rfl, ?_⟩
          unfold VerifyToken at hok
          simp [hH, hsig] at hok
          split_ifs at hok
          simp_all
        · rw [(verifyToken_badSig_of_sig_ne jwtSecret now alg claims sig
            (by rw [hsig]; exact fun h => hs (Option.some.inj h)))] at hok
          exact absurd hok (by simp)
    · have hF : SigAlg.isHMAC alg = false := Bool.eq_false_iff.mpr hH
      unfold VerifyToken at hok
      simp [hF] at hok

/-- Witness for C4 (amended): concrete rejections of an `alg = none`
token, an RS256 token, an unsigned token and a wrong-secret signature. -/
theorem c4_amended_verification_witness :
    VerifyToken "k" 0 ⟨.NoneAlg, ⟨1, "user", 0, 10⟩, none⟩ =
      .error .badSignature ∧
    VerifyToken "k" 0
      ⟨.RS256, ⟨1, "user", 0, 10⟩, some (.RS256, "k", ⟨1, "user", 0, 10⟩)⟩ =
      .error .badSignature ∧
    VerifyToken "k" 0
      ⟨.HS256, ⟨1, "user", 0, 10⟩, some (.HS256, "other", ⟨1, "user", 0, 10⟩)⟩ =
      .error .badSignature :=
  ⟨(c4_amended_verification "k" 0 ⟨.NoneAlg, ⟨1, "user", 0, 10⟩, none⟩).1 rfl,
   (c4_amended_verification "k" 0
      ⟨.RS256, ⟨1, "user", 0, 10⟩, some (.RS256, "k", ⟨1, "user", 0, 10⟩)⟩).2.1 rfl,
   (c4_amended_verification "k" 0
      ⟨.HS256, ⟨1, "user", 0, 10⟩, some (.HS256, "other", ⟨1, "user", 0, 10⟩)⟩).2.2.2.1
      .HS256 "other" ⟨1, "user", 0, 10⟩ rfl (by decide)⟩

/-! ## Role gate (C6) -/

/-- **C6.** The role gate: with no principal in context it rejects 401
unauthorized (not forbidden); with a principal whose role is among the
allowed roles it passes the request on; with a principal whose role is not
allowed it rejects 403 forbidden. -/
theorem c6_require_role (allowedRoles : List String) (principal : Option AuthUser) :
    (principal = none →
      RequireRole allowedRoles principal = .reject sendUnauthorizedResp ∧
      sendUnauthorizedResp.status = 401) ∧
    (∀ u, principal = some u → u.role ∈ allowedRoles →
      RequireRole allowedRoles principal = .next) ∧
    (∀ u, principal = some u → u.role ∉ allowedRoles →
      RequireRole allowedRoles principal = .reject insufficientPermsResp ∧
      insufficientPermsResp.status = 403) := by
  refine ⟨?_, ?_, ?_⟩
  · rintro rfl; exact ⟨rfl, rfl⟩
  · rintro u rfl hmem
    simp only [RequireRole]
    rw [if_pos]
    exact (List.any_eq_true).mpr ⟨u.role, hmem, by simp⟩
  · rintro u rfl hmem
    refine ⟨?_, rfl⟩
    simp only [RequireRole]
    rw [if_neg]
    simp only [List.any_eq_true, not_exists, not_and]
    intro r hr
    simp only [beq_iff_eq]
    rintro rfl
    exact hmem hr

/-- Witness for C6: an admin principal passes the admin-only gate, a
user-role principal is rejected 403, a missing principal is rejected
401. -/
theorem c6_require_role_witness :
    RequireRole ["admin"] none = .reject sendUnauthorizedResp ∧
    RequireRole ["admin"] (some ⟨1, "admin"⟩) = .next ∧
    RequireRole ["admin"] (some ⟨2, "user"⟩) = .reject insufficientPermsResp :=
  ⟨((c6_require_role ["admin"] none).1 rfl).1,
   (c6_require_role ["admin"] (some ⟨1, "admin"⟩)).2.1 ⟨1, "admin"⟩ rfl (by decide),
   ((c6_require_role ["admin"] (some ⟨2, "user"⟩)).2.2 ⟨2, "user"⟩ rfl (by decide)).1⟩

/-! ## Auth-gate header handling (C5)

The gate does not require *exactly one* token after the scheme keyword:
`strings.Fields` may return more than two fields, in which case the code
joins everything after the first field with single spaces and hands the
join to token verification (the Go comment says "in case token contains
spaces").  A header such as `"Bearer a b"` therefore reaches token
verification instead of being rejected at the header stage. -/

/-- **C5 (counterexample).** The header `"Bearer a b"` carries two tokens
after the scheme keyword — it does not match `Bearer <token>` with exactly
one token — yet the gate does not reject it: it proceeds to token
verification with the joined string `"a b"`. -/
theorem c5_counterexample :
    parseAuthHeader "Bearer a b" = .proceed "a b" ∧
    (fields "Bearer a b").length = 3 := by
  exact ⟨rfl, rfl⟩

/-- **C5 (amended).** The gate rejects with the 401 unauthorized response
when the header is absent, when the lower-cased header does not start with
`"bearer "`, when the whitespace split has fewer than two fields, when the
first field is not `bearer` case-insensitively, or when the joined token
is empty — the empty-token rejection being the very same response as the
missing-header one; every rejection is 401-class; it proceeds to token
verification exactly when the header is well-formed in that sense, with
the token being all fields after the scheme keyword joined by single
spaces (one or more tokens, not exactly one); and whenever the header
stage rejects, the middleware returns that rejection without consulting
token decoding or verification, so no downstream handler runs. -/
theorem c5_auth_gate_header (authHeader : String) :
    (authHeader = "" → parseAuthHeader authHeader = .reject sendUnauthorizedResp) ∧
    (∀ r, parseAuthHeader authHeader = .reject r →
      r = sendUnauthorizedResp ∧ r.status = 401) ∧
    (∀ tok, parseAuthHeader authHeader = .proceed tok →
      authHeader ≠ "" ∧
      startsWithList (toLowerAscii authHeader).data "bearer ".data = true ∧
      2 ≤ (fields authHeader).length ∧
      eqFoldAscii (fields authHeader).headI "bearer" = true ∧
      tok = String.intercalate " " (fields authHeader).tail ∧
      tok ≠ "") ∧
    (authHeader ≠ "" →
      startsWithList (toLowerAscii authHeader).data "bearer ".data = true →
      2 ≤ (fields authHeader).length →
      eqFoldAscii (fields authHeader).headI "bearer" = true →
      String.intercalate " " (fields authHeader).tail ≠ "" →
      parseAuthHeader authHeader =
        .proceed (String.intercalate " " (fields authHeader).tail)) ∧
    (∀ r, parseAuthHeader authHeader = .reject r →
      ∀ (jwtSecret : String) (decode : String → Option Token) (now : Int),
        Auth jwtSecret decode now authHeader = .reject r) := by
  have hAuth : ∀ r, parseAuthHeader authHeader = .reject r →
      ∀ (jwtSecret : String) (decode : String → Option Token) (now : Int),
        Auth jwtSecret decode now authHeader = .reject r := by
    intro r hr jwtSecret decode now
    unfold Auth
    rw [hr]
  refine ⟨?_, ?_, ?_, ?_, hAuth⟩
  · intro h
    simp [parseAuthHeader, h]
  · intro r hr
    simp only [parseAuthHeader] at hr
    split_ifs at hr <;>
      first
      | (injection hr with hr2; subst hr2; exact ⟨rfl, rfl⟩)
      | simp_all
  · intro tok htok
    simp only [parseAuthHeader] at htok
    split_ifs at htok <;> simp_all
  · intro h1 h2 h3 h4 h5
    simp only [parseAuthHeader]
    split_ifs <;> first | rfl | omega | simp_all

/-- Witness for C5 (amended): a missing header and an empty-token header
produce the identical 401 rejection; a canonically formed header proceeds
with its token; and the rejected request never reaches verification. -/
theorem c5_auth_gate_header_witness :
    parseAuthHeader "" = .reject sendUnauthorizedResp ∧
    (sendUnauthorizedResp = sendUnauthorizedResp ∧ sendUnauthorizedResp.status = 401) ∧
    parseAuthHeader "Bearer abc.def.ghi" =
      .proceed (String.intercalate " " (fields "Bearer abc.def.ghi").tail) ∧
    Auth "k" (fun _ => none) 0 "Bearer " = .reject sendUnauthorizedResp :=
  ⟨(c5_auth_gate_header "").1 rfl,
   (c5_auth_gate_header "Bearer ").2.1 sendUnauthorizedResp rfl,
   (c5_auth_gate_header "Bearer abc.def.ghi").2.2.2.1 (by decide) (by decide)
     (by decide) (by decide) (by decide),
   (c5_auth_gate_header "Bearer ").2.2.2.2 sendUnauthorizedResp rfl "k"
     (fun _ => none) 0⟩

/-! ## Signup ordering (C7) and role confinement (C9) -/

/-- Helper: every store-write event in a `CreateUser` trace carries the
hash produced by the hasher on the request password and the role argument
(defaulted to `"user"` when empty), and implies the hasher ran after a
passed policy check. -/
theorem createUser_storeWrite_shape
    (hashFn : String → Option String) (parseDate : String → Option Date)
    (store : String → String → String → String → Date → Except String CreateUserRow)
    (name email password dobStr role : String) (n e h r : String)
    (hmem : AuthEvent.storeWrite n e h r ∈
      (CreateUser hashFn parseDate store name email password dobStr role).2) :
    n = name ∧ e = email ∧ hashFn password = some h ∧
    r = (if role = "" then "user" else role) ∧
    ValidatePasswordStrength password = none := by
  unfold CreateUser at hmem
  cases hv : ValidatePasswordStrength password with
  | some pe => simp [hv] at hmem
  | none =>
    simp only [hv] at hmem
    cases hh : hashFn password with
    | none => simp [hh] at hmem
    | some hashed =>
      simp only [hh] at hmem
      cases hd : parseDate dobStr with
      | none => simp [hd] at hmem
      | some dob =>
        simp only [hd] at hmem
        cases hs : store name email hashed (if role = "" then "user" else role) dob with
        | error msg =>
          simp only [hs] at hmem
          split_ifs at hmem <;> simp_all
        | ok row =>
          simp only [hs] at hmem
          simp_all

/-- **C7.** `CreateUser` runs the policy check strictly first: on a policy
violation it returns exactly that violation having performed only the
policy check — the hasher was never invoked and the store was never
called; in every run the first collaborator call is the policy check, the
hasher runs only when the policy passed, and a store write happens only
after the hasher produced the hash that is written. -/
theorem c7_policy_before_hash_and_store
    (hashFn : String → Option String) (parseDate : String → Option Date)
    (store : String → String → String → String → Date → Except String CreateUserRow)
    (name email password dobStr role : String) :
    (∀ pe, ValidatePasswordStrength password = some pe →
      CreateUser hashFn parseDate store name email password dobStr role =
        (.error (.policy pe), [.policyCheck password])) ∧
    ((CreateUser hashFn parseDate store name email password dobStr role).2.head? =
      some (.policyCheck password)) ∧
    (AuthEvent.hashPassword password ∈
        (CreateUser hashFn parseDate store name email password dobStr role).2 →
      ValidatePasswordStrength password = none) ∧
    (∀ n e h r, AuthEvent.storeWrite n e h r ∈
        (CreateUser hashFn parseDate store name email password dobStr role).2 →
      AuthEvent.hashPassword password ∈
        (CreateUser hashFn parseDate store name email password dobStr role).2 ∧
      hashFn password = some h ∧
      ValidatePasswordStrength password = none) := by
  refine ⟨?_, ?_, ?_, ?_⟩
  · intro pe hv
    unfold CreateUser
    rw [hv]
  · unfold CreateUser
    cases hv : ValidatePasswordStrength password <;>
      cases hh : hashFn password <;>
        cases hd : parseDate dobStr <;>
          simp <;>
            cases hs : store name email _ (if role = "" then "user" else role) _ <;>
              split_ifs <;> simp <;> split_ifs <;> rfl
  · intro hmem
    unfold CreateUser at hmem
    cases hv : ValidatePasswordStrength password with
    | some pe => simp [hv] at hmem
    | none => rfl
  · intro n e h r hmem
    have hshape := createUser_storeWrite_shape hashFn parseDate store
      name email password dobStr role n e h r hmem
    refine ⟨?_, hshape.2.2.1, hshape.2.2.2.2⟩
    unfold CreateUser at hmem ⊢
    rw [hshape.2.2.2.2] at hmem ⊢
    cases hh : hashFn password with
    | none => simp [hh] at hmem
    | some hashed =>
      simp only [hh] at hmem ⊢
      cases hd : parseDate dobStr with
      | none => simp [hd] at hmem
      | some dob =>
        simp only [hd] at hmem ⊢
        cases hs : store name email hashed (if role = "" then "user" else role) dob with
        | error msg =>
          simp only [hs] at hmem ⊢
          split_ifs <;> simp
        | ok row =>
          simp only [hs] at hmem ⊢
          simp

/-- Witness for C7 at a concrete weak password: `"weak"` fails the policy
(too short), so `CreateUser` returns the violation with a trace holding
nothing but the policy check — in particular no hash and no store call. -/
theorem c7_policy_before_hash_and_store_witness :
    CreateUser (fun p => some p) (fun _ => some ⟨1990, 1, 1⟩)
        (fun n e h r _ => .ok ⟨1, n, e, r, 0⟩)
        "John" "j@e.c" "weak" "1990-01-01" "user" =
      (.error (.policy .TooShort), [.policyCheck "weak"]) :=
  (c7_policy_before_hash_and_store (fun p => some p) (fun _ => some ⟨1990, 1, 1⟩)
      (fun n e h r _ => .ok ⟨1, n, e, r, 0⟩)
      "John" "j@e.c" "weak" "1990-01-01" "user").1 .TooShort (by decide)

/-- **C9.** Every store write performed on behalf of the public signup
endpoint carries the role `"user"`: the handler passes the role literal
`"user"` unconditionally (the request body's `role` member, if any, is
dropped by the body parser), so no signup request can create an account
with role `"admin"`. -/
theorem c9_signup_role_is_user
    (validateReq : SignupRequest → Bool) (hashFn : String → Option String)
    (parseDate : String → Option Date)
    (store : String → String → String → String → Date → Except String CreateUserRow)
    (body : SignupBody) (n e h r : String)
    (hmem : AuthEvent.storeWrite n e h r ∈
      (Signup validateReq hashFn parseDate store body).2) :
    r = "user" ∧ r ≠ "admin" := by
  have hrole : r = "user" := by
    simp only [Signup] at hmem
    split_ifs at hmem with hval
    · simp at hmem
    · revert hmem
      cases hv : ValidatePasswordStrength (parseSignupBody body).password with
      | some pe => intro hmem; simp at hmem
      | none =>
        intro hmem
        have := createUser_storeWrite_shape hashFn parseDate store
          (parseSignupBody body).name (parseSignupBody body).email
          (parseSignupBody body).password (parseSignupBody body).dob "user" n e h r
          (by
            revert hmem
            cases hcu : CreateUser hashFn parseDate store (parseSignupBody body).name
              (parseSignupBody body).email (parseSignupBody body).password
              (parseSignupBody body).dob "user" with
            | mk res trace =>
              intro hmem
              cases res with
              | ok row => simpa [hcu] using hmem
              | error err =>
                cases err <;> simp_all <;> split_ifs at hmem <;> simp_all)
        simpa using this.2.2.2.1
  exact ⟨hrole, by rw [hrole]; decide⟩

/-- Witness for C9: a concrete signup request whose body even carries
`role: "admin"` results in a store write with role `"user"`. -/
theorem c9_signup_role_is_user_witness :
    AuthEvent.storeWrite "John" "j@e.c" "Passw0rd!" "user" ∈
      (Signup (fun _ => true) (fun p => some p) (fun _ => some ⟨1990, 1, 1⟩)
        (fun n e h r _ => .ok ⟨1, n, e, r, 0⟩)
        ⟨"John", "j@e.c", "Passw0rd!", "1990-01-01", some "admin"⟩).2 ∧
    "user" = "user" ∧ "user" ≠ "admin" :=
  ⟨by decide,
   c9_signup_role_is_user (fun _ => true) (fun p => some p)
     (fun _ => some ⟨1990, 1, 1⟩) (fun n e h r _ => .ok ⟨1, n, e, r, 0⟩)
     ⟨"John", "j@e.c", "Passw0rd!", "1990-01-01", some "admin"⟩
     "John" "j@e.c" "Passw0rd!" "user" (by decide)⟩

/-! ## Store-error mapping at signup (C8)

`CreateUser` recognises a duplicate email only by comparing the store
error message with two exact strings; everything else is wrapped as an
internal failure.  The HTTP handler then re-examines the wrapped message
and returns 409 whenever it merely *contains* `duplicate key` or
`unique constraint`.  So the actual PostgreSQL unique-violation message
(`pgx` format, with the constraint name and SQLSTATE appended) is *not*
mapped to `EmailAlreadyExists` by the service, yet still surfaces as 409
through the handler's substring fallback — and a non-uniqueness failure
whose message happens to contain one of the substrings also surfaces as
409 rather than 500. -/

/-- The message an actual PostgreSQL unique-constraint violation carries
through the `pgx` driver: not equal to either of the two strings the
service compares against. -/
def pgUniqueMsg : String :=
  "ERROR: duplicate key value violates unique constraint \"users_email_key\" (SQLSTATE 23505)"

/-- A store failure that is not a uniqueness violation but whose message
mentions `unique constraint`. -/
def oddFailureMsg : String :=
  "store timeout while rebuilding unique constraint index"

/-- **C8 (counterexample).** The real PostgreSQL uniqueness-violation
message is not mapped to `EmailAlreadyExists` by the service (it is
wrapped as an internal failure — the exact-string comparison misses it),
while a non-uniqueness store failure that merely mentions
`unique constraint` is surfaced by the signup handler as a 409 conflict,
not as a 500 internal failure. -/
theorem c8_counterexample :
    (CreateUser (fun p => some p) (fun _ => some ⟨1990, 1, 1⟩)
        (fun _ _ _ _ _ => .error pgUniqueMsg)
        "John" "j@e.c" "Passw0rd!" "1990-01-01" "user").1 =
      .error (.internalFailure ("failed to create user: " ++ pgUniqueMsg)) ∧
    (CreateUser (fun p => some p) (fun _ => some ⟨1990, 1, 1⟩)
        (fun _ _ _ _ _ => .error pgUniqueMsg)
        "John" "j@e.c" "Passw0rd!" "1990-01-01" "user").1 ≠
      .error .emailAlreadyExists ∧
    (Signup (fun _ => true) (fun p => some p) (fun _ => some ⟨1990, 1, 1⟩)
        (fun _ _ _ _ _ => .error oddFailureMsg)
        ⟨"John", "j@e.c", "Passw0rd!", "1990-01-01", none⟩).1 = .conflict ∧
    (Signup (fun _ => true) (fun p => some p) (fun _ => some ⟨1990, 1, 1⟩)
        (fun _ _ _ _ _ => .error oddFailureMsg)
        ⟨"John", "j@e.c", "Passw0rd!", "1990-01-01", none⟩).1 ≠ .internalError := by
  have h1 : (CreateUser (fun p => some p) (fun _ => some ⟨1990, 1, 1⟩)
      (fun _ _ _ _ _ => Except.error pgUniqueMsg)
      "John" "j@e.c" "Passw0rd!" "1990-01-01" "user").1 =
      .error (.internalFailure ("failed to create user: " ++ pgUniqueMsg)) := rfl
  have h2 : (Signup (fun _ => true) (fun p => some p) (fun _ => some ⟨1990, 1, 1⟩)
      (fun _ _ _ _ _ => Except.error oddFailureMsg)
      ⟨"John", "j@e.c", "Passw0rd!", "1990-01-01", none⟩).1 = .conflict := rfl
  refine ⟨h1, ?_, h2, ?_⟩
  · rw [h1]
    simp
  · rw [h2]
    simp

/-- **C8 (amended).** When the store insert fails with message `msg`, the
service maps the failure to `EmailAlreadyExists` exactly when `msg` equals
one of the two hard-coded duplicate-key strings, and wraps every other
message as `failed to create user: msg`; the signup handler then answers
409 exactly when the error is `EmailAlreadyExists` or the wrapped message
contains `duplicate key` or `unique constraint`, and 500 otherwise. -/
theorem c8_amended_store_error_mapping
    (validateReq : SignupRequest → Bool) (hashFn : String → Option String)
    (parseDate : String → Option Date) (body : SignupBody)
    (msg hashed : String) (date : Date)
    (hreq : validateReq (parseSignupBody body) = true)
    (hv : ValidatePasswordStrength body.password = none)
    (hh : hashFn body.password = some hashed)
    (hd : parseDate body.dob = some date) :
    ((CreateUser hashFn parseDate (fun _ _ _ _ _ => .error msg)
        body.name body.email body.password body.dob "user").1 =
      if msg = dupMsg1 ∨ msg = dupMsg2 then .error .emailAlreadyExists
      else .error (.internalFailure ("failed to create user: " ++ msg))) ∧
    ((Signup validateReq hashFn parseDate (fun _ _ _ _ _ => .error msg) body).1 =
      if msg = dupMsg1 ∨ msg = dupMsg2 then .conflict
      else if containsSub ("failed to create user: " ++ msg) "duplicate key" ||
              containsSub ("failed to create user: " ++ msg) "unique constraint" then
        .conflict
      else .internalError) := by
  have hcu : CreateUser hashFn parseDate (fun _ _ _ _ _ => Except.error msg)
      body.name body.email body.password body.dob "user" =
      ((if msg = dupMsg1 ∨ msg = dupMsg2 then
          Except.error CreateUserError.emailAlreadyExists
        else
          Except.error (CreateUserError.internalFailure
            ("failed to create user: " ++ msg))),
       [AuthEvent.policyCheck body.password, AuthEvent.hashPassword body.password,
        AuthEvent.parseDob body.dob,
        AuthEvent.storeWrite body.name body.email hashed "user"]) := by
    unfold CreateUser
    simp only [hv, hh, hd]
    split_ifs <;> simp
  refine ⟨?_, ?_⟩
  · rw [hcu]
  · have hreq2 : validateReq ⟨body.name, body.email, body.password, body.dob⟩ = true :=
      hreq
    by_cases hdup : msg = dupMsg1 ∨ msg = dupMsg2
    · rw [if_pos hdup] at hcu
      simp only [Signup]
      dsimp only [parseSignupBody]
      simp only [hreq2, Bool.not_true, Bool.false_eq_true, if_false, hv, hcu,
        if_pos hdup]
    · rw [if_neg hdup] at hcu
      simp only [Signup]
      dsimp only [parseSignupBody]
      simp only [hreq2, Bool.not_true, Bool.false_eq_true, if_false, hv, hcu,
        if_neg hdup]
      split_ifs <;> rfl

/-- Witness for C8 (amended): a plain failure message maps to the wrapped
internal failure and surfaces as a 500. -/
theorem c8_amended_store_error_mapping_witness :
    (CreateUser (fun p => some p) (fun _ => some ⟨1990, 1, 1⟩)
        (fun _ _ _ _ _ => .error "connection refused")
        "John" "j@e.c" "Passw0rd!" "1990-01-01" "user").1 =
      .error (.internalFailure ("failed to create user: " ++ "connection refused")) ∧
    (Signup (fun _ => true) (fun p => some p) (fun _ => some ⟨1990, 1, 1⟩)
        (fun _ _ _ _ _ => .error "connection refused")
        ⟨"John", "j@e.c", "Passw0rd!", "1990-01-01", none⟩).1 = .internalError := by
  have h := c8_amended_store_error_mapping (fun _ => true) (fun p => some p)
    (fun _ => some ⟨1990, 1, 1⟩) ⟨"John", "j@e.c", "Passw0rd!", "1990-01-01", none⟩
    "connection refused" "Passw0rd!" ⟨1990, 1, 1⟩ rfl (by decide) rfl rfl
  exact ⟨by rw [h.1]; rfl, by rw [h.2]; rfl⟩

/-! ## Pagination arithmetic (C10) -/

/-- Helper: the Go rounding-up `total/limit + (1 if remainder)` equals the
ceiling `(total + limit - 1) / limit`. -/
theorem nat_ceil_div (t L : Nat) (hL : 0 < L) :
    t / L + (if t % L ≠ 0 then 1 else 0) = (t + L - 1) / L := by
  have hdm := Nat.div_add_mod t L
  have hmod := Nat.mod_lt t hL
  by_cases h : t % L = 0
  · have h1 : t + L - 1 = L * (t / L) + (L - 1) := by omega
    rw [h1, Nat.mul_add_div hL, Nat.div_eq_of_lt (Nat.sub_lt hL Nat.one_pos)]
    simp [h]
  · have hms : L * (t / L + 1) = L * (t / L) + L := Nat.mul_succ L (t / L)
    have h1 : t + L - 1 = L * (t / L + 1) + (t % L - 1) := by omega
    have hlt : t % L - 1 < L := by omega
    rw [h1, Nat.mul_add_div hL, Nat.div_eq_of_lt hlt]
    simp [h]

/-- Helper: wrapping to 32 bits after wrapping to 64 bits is the same as
wrapping to 32 bits directly (Go's `int32(x)` of a native-int value). -/
theorem wrapInt32_wrapInt64 (x : Int) : wrapInt 32 (wrapInt 64 x) = wrapInt 32 x := by
  unfold wrapInt
  norm_num
  omega

/-- Helper: the 32-bit wrap is the identity on values already in the
int32 range. -/
theorem wrapInt32_eq_self (x : Int) (h1 : -(2 ^ 31) ≤ x) (h2 : x < 2 ^ 31) :
    wrapInt 32 x = x := by
  unfold wrapInt
  norm_num
  omega

/-- **C10 (counterexample).** At page 21474838 and limit 100 — values any
client can put in the query string, untouched by both clamps — the
mathematical offset `(page-1)*limit` is 2147483700, which exceeds the
int32 range; the offset the program hands to the paginated query is the
two's-complement-wrapped value -2147483596, not `(page-1)*limit`. -/
theorem c10_counterexample :
    ((21474838 : Int) - 1) * 100 = 2147483700 ∧
    (UserHandlerList 25 21474838 100).1.offset = -2147483596 ∧
    (UserHandlerList 25 21474838 100).1.offset ≠ ((21474838 : Int) - 1) * 100 := by
  refine ⟨by decide, by decide, by decide⟩

/-- **C10 (amended).** For every total and every requested page ≥ 1 and
limit, the pagination pipeline (handler clamp then service clamp)
replaces any limit outside `[1,100]` with 10 and queries the store with
the int32 truncation of `(page-1)*limit` at the effective limit — equal
to `(page-1)*limit` itself exactly when that product is below `2^31` —
and returns metadata whose `totalPages` is the ceiling of `total/limit`
at the effective limit, `hasNext` holding exactly when
`page < totalPages` and `hasPrevious` exactly when `page > 1`. -/
theorem c10_pagination_amended (total : Nat) (page limit : Int) (hp : 1 ≤ page) :
    (UserHandlerList total page limit).1.limit =
      (if limit < 1 ∨ 100 < limit then (10 : Int) else limit) ∧
    1 ≤ (UserHandlerList total page limit).1.limit ∧
    (UserHandlerList total page limit).1.limit ≤ 100 ∧
    (UserHandlerList total page limit).1.offset =
      wrapInt 32 ((page - 1) * (UserHandlerList total page limit).1.limit) ∧
    ((page - 1) * (UserHandlerList total page limit).1.limit < 2 ^ 31 →
      (UserHandlerList total page limit).1.offset =
        (page - 1) * (UserHandlerList total page limit).1.limit) ∧
    (UserHandlerList total page limit).2.page = page.toNat ∧
    (UserHandlerList total page limit).2.limit =
      (UserHandlerList total page limit).1.limit.toNat ∧
    (UserHandlerList total page limit).2.totalPages =
      (total + (UserHandlerList total page limit).1.limit.toNat - 1) /
        (UserHandlerList total page limit).1.limit.toNat ∧
    ((UserHandlerList total page limit).2.hasNext = true ↔
      page.toNat < (UserHandlerList total page limit).2.totalPages) ∧
    ((UserHandlerList total page limit).2.hasPrevious = true ↔
      1 < page.toNat) := by
  have hpage : (if ((if page < 1 then (1 : Int) else page)) < 1 then (1 : Int)
      else (if page < 1 then (1 : Int) else page)) = page := by
    rw [if_neg (not_lt.mpr hp), if_neg (not_lt.mpr hp)]
  have hlimit : (if ((if limit < 1 then (10 : Int) else limit)) < 1 ∨
        100 < ((if limit < 1 then (10 : Int) else limit)) then (10 : Int)
      else (if limit < 1 then (10 : Int) else limit)) =
      (if limit < 1 ∨ 100 < limit then (10 : Int) else limit) := by
    split_ifs <;> omega
  have hbounds : 1 ≤ (if limit < 1 ∨ 100 < limit then (10 : Int) else limit) ∧
      (if limit < 1 ∨ 100 < limit then (10 : Int) else limit) ≤ 100 := by
    split_ifs <;> omega
  obtain ⟨hb1, hb2⟩ := hbounds
  have hw32 : wrapInt 32 (if limit < 1 ∨ 100 < limit then (10 : Int) else limit) =
      (if limit < 1 ∨ 100 < limit then (10 : Int) else limit) :=
    wrapInt32_eq_self _ (le_trans (by norm_num) hb1) (lt_of_le_of_lt hb2 (by norm_num))
  have heq : UserHandlerList total page limit =
      (⟨wrapInt 32 (if limit < 1 ∨ 100 < limit then (10 : Int) else limit),
        wrapInt 32 (wrapInt 64 ((page - 1) *
          (if limit < 1 ∨ 100 < limit then (10 : Int) else limit)))⟩,
       ⟨total, page.toNat,
        (if limit < 1 ∨ 100 < limit then (10 : Int) else limit).toNat,
        total / (if limit < 1 ∨ 100 < limit then (10 : Int) else limit).toNat +
          (if total % (if limit < 1 ∨ 100 < limit then (10 : Int)
              else limit).toNat ≠ 0 then 1 else 0),
        decide (page.toNat <
          total / (if limit < 1 ∨ 100 < limit then (10 : Int) else limit).toNat +
            (if total % (if limit < 1 ∨ 100 < limit then (10 : Int)
                else limit).toNat ≠ 0 then 1 else 0)),
        decide (1 < page.toNat)⟩) := by
    simp only [UserHandlerList, ListUsersWithAgePaginated]
    rw [hpage, hlimit]
  have hLpos : 0 < (if limit < 1 ∨ 100 < limit then (10 : Int) else limit).toNat := by
    omega
  rw [heq]
  dsimp only
  refine ⟨hw32, ?_, ?_, ?_, ?_, rfl, ?_, ?_, ?_, ?_⟩
  · rw [hw32]
    exact hb1
  · rw [hw32]
    exact hb2
  · rw [hw32, wrapInt32_wrapInt64]
  · intro hlt
    rw [hw32] at hlt ⊢
    rw [wrapInt32_wrapInt64]
    have h0 : 0 ≤ (page - 1) *
        (if limit < 1 ∨ 100 < limit then (10 : Int) else limit) :=
      mul_nonneg (by omega) (by omega)
    exact wrapInt32_eq_self _ (le_trans (by norm_num) h0) hlt
  · rw [hw32]
  · rw [hw32]
    exact nat_ceil_div total _ hLpos
  · simp
  · simp

/-- Witness for C10 (amended) at concrete inputs: total 25, page 2,
requested limit 1000 is replaced by 10; the product 10 fits int32 so the
queried offset is 10; 3 total pages; a next page exists and a previous
page exists. -/
theorem c10_pagination_amended_witness :
    (UserHandlerList 25 2 1000).1.limit = 10 ∧
    (UserHandlerList 25 2 1000).1.offset = 10 ∧
    (UserHandlerList 25 2 1000).2.totalPages = 3 ∧
    (UserHandlerList 25 2 1000).2.hasNext = true ∧
    (UserHandlerList 25 2 1000).2.hasPrevious = true := by
  have h := c10_pagination_amended 25 2 1000 (by decide)
  obtain ⟨h1, h2, h3, h4, h5, h6, h7, h8, h9, h10⟩ := h
  refine ⟨?_, ?_, ?_, ?_, ?_⟩
  · rw [h1]
    decide
  · have hoff := h5 (by rw [h1]; decide)
    rw [hoff, h1]
    decide
  · rw [h8, h1]
    decide
  · exact h9.mpr (by rw [h8, h1]; decide)
  · exact h10.mpr (by decide)

end Backend
